import Mathlib

/-!
Shallow embedding of the messaging rescaler policy
(`src/messaging/src/rescaler.rs`) over exact rational arithmetic.
The `f64` quantities of the source are modelled as `ℚ`; the `u64` scale
and memory sizes as `ℕ`; the elapsed interval (a whole number of seconds
produced by `num_seconds()`) as `ℤ`, cast to `ℚ` where the source casts
to `f64`.  Note that `ℚ` division by zero is `0`, whereas IEEE `f64`
division by zero is non-finite; places where this matters are pointed out
at the relevant theorems.
-/

namespace Rescaler

/-- Factor for moving average (source constant `MOVING_FACTOR = 0.25`). -/
def MOVING_FACTOR : ℚ := 25 / 100

/-- Value to force spin up (source constant `FORCE_THRESHOLD = 1e-4`). -/
def FORCE_THRESHOLD : ℚ := 1 / 10000

/-- Lambda overhead subtracted from active time (`MIN_LAMBDA_OVERHEAD = 0.007`). -/
def MIN_LAMBDA_OVERHEAD : ℚ := 7 / 1000

/-- Caller-side waiting overhead per call (`MAX_LAMBDA_OVERHEAD = 0.020`). -/
def MAX_LAMBDA_OVERHEAD : ℚ := 20 / 1000

/-- Hourly price of 1 vcpu and 2GB (`ECS_BASE_PRICE = 0.015`). -/
def ECS_BASE_PRICE : ℚ := 15 / 1000

/-- Per-second-per-GB unit price, inlined in the source as `0.0000166667`. -/
def LAMBDA_UNIT_PRICE : ℚ := 166667 / 10000000000

/-- Persisted state `MessagingScalingInfo { activity, waiting }`. -/
structure MessagingScalingInfo where
  activity : ℚ
  waiting : ℚ
deriving DecidableEq

/-- The fields of the deployment's `msg_info` read at the top of `rescale`:
`mem`, `fn_mem`, `caller_mem`, all in MB. -/
structure MsgInfo where
  mem : ℕ
  fn_mem : ℕ
  caller_mem : ℕ
deriving DecidableEq

/-- The three accumulators of the metrics loop (lines 61-63 of the source):
`total_active_secs`, `total_waiting_secs`, `force_spin_up`. -/
structure AggState where
  total_active_secs : ℚ
  total_waiting_secs : ℚ
  force_spin_up : Bool
deriving DecidableEq

/-- Time spent active for one sample (lines 71-76): subtract
`MIN_LAMBDA_OVERHEAD` from the duration and bound the result below by 1ms. -/
def active_duration_secs (duration_secs : ℚ) : ℚ :=
  if duration_secs - MIN_LAMBDA_OVERHEAD < 1 / 1000 then 1 / 1000
  else duration_secs - MIN_LAMBDA_OVERHEAD

/-- One iteration of the metrics loop (lines 65-80): a sample below
`FORCE_THRESHOLD` turns the sticky `force_spin_up` flag on, and every
sample (without any else) accumulates its active duration into
`total_active_secs` and `MAX_LAMBDA_OVERHEAD` into `total_waiting_secs`. -/
def agg_step (acc : AggState) (duration_secs : ℚ) : AggState :=
  { total_active_secs := acc.total_active_secs + active_duration_secs duration_secs
    total_waiting_secs := acc.total_waiting_secs + MAX_LAMBDA_OVERHEAD
    force_spin_up := acc.force_spin_up || decide (duration_secs < FORCE_THRESHOLD) }

/-- The whole metrics loop, folding `agg_step` from zero accumulators. -/
def aggregate (metrics : List ℚ) : AggState :=
  metrics.foldl agg_step ⟨0, 0, false⟩

/-- The cycle's raw activity (lines 82-92): when `force_spin_up` is off,
`total_active_secs / total_interval` capped at `1.0`; otherwise the
sentinel `10.0`. -/
def raw_activity (agg : AggState) (total_interval : ℚ) : ℚ :=
  if !agg.force_spin_up then
    if agg.total_active_secs / total_interval > 1 then 1
    else agg.total_active_secs / total_interval
  else 10

/-- Hourly cost of the provisioned instance (line 97):
`ECS_BASE_PRICE * (mem / 2048)`. -/
def ecs_cost (deployed_actor : MsgInfo) : ℚ :=
  ECS_BASE_PRICE * ((deployed_actor.mem : ℚ) / 2048)

/-- Hourly serverless cost (line 98):
`0.0000166667 * 3600 * (fn_mem / 1024) * activity`. -/
def lambda_cost (deployed_actor : MsgInfo) (activity : ℚ) : ℚ :=
  LAMBDA_UNIT_PRICE * 3600 * ((deployed_actor.fn_mem : ℚ) / 1024) * activity

/-- Hourly caller-waiting cost (line 99):
`0.0000166667 * 3600 * (caller_mem / 1024) * waiting`. -/
def waiting_cost (deployed_actor : MsgInfo) (waiting : ℚ) : ℚ :=
  LAMBDA_UNIT_PRICE * 3600 * ((deployed_actor.caller_mem : ℚ) / 1024) * waiting

/-- The price ratio of line 100: `(lambda_cost + waiting_cost) / ecs_cost`. -/
def price_ratio (deployed_actor : MsgInfo) (si : MessagingScalingInfo) : ℚ :=
  (lambda_cost deployed_actor si.activity + waiting_cost deployed_actor si.waiting) /
    ecs_cost deployed_actor

/-- The moving-average update (lines 93-95): the new persisted state.
A missing previous state defaults to `(0, 0)` (lines 50-56). -/
def new_scaling_info (scaling_info : Option MessagingScalingInfo)
    (total_interval : ℚ) (metrics : List ℚ) : MessagingScalingInfo :=
  ⟨(1 - MOVING_FACTOR) * (scaling_info.getD ⟨0, 0⟩).activity +
      MOVING_FACTOR * raw_activity (aggregate metrics) total_interval,
    (1 - MOVING_FACTOR) * (scaling_info.getD ⟨0, 0⟩).waiting +
      MOVING_FACTOR * ((aggregate metrics).total_waiting_secs / total_interval)⟩

/-- The whole `rescale` body: aggregate the metrics, update the moving
averages over the elapsed interval, and emit scale `1` exactly when the
price ratio is at least `1.0` (line 102, `u64::from(price_ratio >= 1.0)`).
`total_interval_secs` is `num_seconds()` of the difference between the
current and previous rescale timestamps (lines 58-60), cast like the
source's `as f64`. -/
def rescale (scaling_info : Option MessagingScalingInfo) (deployed_actor : MsgInfo)
    (total_interval_secs : ℤ) (metrics : List ℚ) : ℕ × MessagingScalingInfo :=
  let info := new_scaling_info scaling_info (total_interval_secs : ℚ) metrics
  (if price_ratio deployed_actor info ≥ 1 then 1 else 0, info)

/-- Iterate `rescale` over a list of cycles, each a pair of an elapsed
interval and a metrics batch, threading the persisted state. -/
def run_cycles (init : MessagingScalingInfo) (deployed_actor : MsgInfo)
    (cycles : List (ℤ × List ℚ)) : MessagingScalingInfo :=
  cycles.foldl (fun st c => (rescale (some st) deployed_actor c.1 c.2).2) init

/-- Pointwise combination of two aggregation results: sums and disjunction. -/
def agg_combine (a b : AggState) : AggState :=
  ⟨a.total_active_secs + b.total_active_secs,
    a.total_waiting_secs + b.total_waiting_secs,
    a.force_spin_up || b.force_spin_up⟩

/-- Concatenation of a list of sub-batches into one batch. -/
def flat_batches (bs : List (List ℚ)) : List ℚ :=
  bs.foldr (fun b acc => b ++ acc) []

/-- Resource sizing of the end-to-end scenario: provisioned memory 2048 MB,
function memory 1024 MB, caller memory 1024 MB. -/
def scenario_actor : MsgInfo := ⟨2048, 1024, 1024⟩

/-- The end-to-end scenario's cycles: each entry is a 60-second cycle with
the given number of one-second samples. -/
def scenario_cycles (num_entries : List ℕ) : List (ℤ × List ℚ) :=
  num_entries.map (fun n => (60, List.replicate n 1))

/-! ## Helper lemmas -/

theorem agg_step_foldl (ms : List ℚ) (acc : AggState) :
    ms.foldl agg_step acc =
      ⟨acc.total_active_secs + (ms.map active_duration_secs).sum,
        acc.total_waiting_secs + ms.length * MAX_LAMBDA_OVERHEAD,
        acc.force_spin_up || ms.any fun d => decide (d < FORCE_THRESHOLD)⟩ := by
  induction ms generalizing acc with
  | nil => cases acc; simp
  | cons d tl ih =>
    rw [List.foldl_cons, ih]
    cases acc with
    | mk a w f =>
      simp only [agg_step, AggState.mk.injEq, List.map_cons, List.sum_cons,
        List.length_cons, List.any_cons, Bool.or_assoc]
      refine ⟨by ring, by push_cast; ring, trivial⟩

theorem aggregate_spec (ms : List ℚ) :
    aggregate ms =
      ⟨(ms.map active_duration_secs).sum,
        ms.length * MAX_LAMBDA_OVERHEAD,
        ms.any fun d => decide (d < FORCE_THRESHOLD)⟩ := by
  rw [aggregate, agg_step_foldl]
  simp

theorem active_duration_nonneg (d : ℚ) : 0 ≤ active_duration_secs d := by
  unfold active_duration_secs
  split
  · norm_num
  · rename_i h
    rw [not_lt] at h
    linarith

theorem total_active_nonneg (ms : List ℚ) : 0 ≤ (aggregate ms).total_active_secs := by
  rw [aggregate_spec]
  refine List.sum_nonneg ?_
  intro x hx
  obtain ⟨d, _, rfl⟩ := List.mem_map.mp hx
  exact active_duration_nonneg d

theorem aggregate_no_force (ms : List ℚ) (hf : ∀ x ∈ ms, ¬ x < FORCE_THRESHOLD) :
    (aggregate ms).force_spin_up = false := by
  rw [aggregate_spec]
  simp only [List.any_eq_false, decide_eq_true_eq]
  exact hf

theorem raw_activity_bounds (ms : List ℚ) (T : ℚ) (hT : 0 < T)
    (hf : (aggregate ms).force_spin_up = false) :
    0 ≤ raw_activity (aggregate ms) T ∧ raw_activity (aggregate ms) T ≤ 1 := by
  have hA : 0 ≤ (aggregate ms).total_active_secs := total_active_nonneg ms
  unfold raw_activity
  rw [hf]
  simp only [Bool.not_false, if_true]
  split
  · exact ⟨zero_le_one, le_refl 1⟩
  · rename_i h
    rw [not_lt] at h
    exact ⟨div_nonneg hA hT.le, h⟩

theorem ema_bounds (a r : ℚ) (h0 : 0 ≤ a) (h1 : a ≤ 1) (r0 : 0 ≤ r) (r1 : r ≤ 1) :
    0 ≤ (1 - MOVING_FACTOR) * a + MOVING_FACTOR * r ∧
      (1 - MOVING_FACTOR) * a + MOVING_FACTOR * r ≤ 1 := by
  unfold MOVING_FACTOR
  constructor <;> nlinarith

theorem rescale_activity_bounds (si : MessagingScalingInfo) (d : MsgInfo) (T : ℤ)
    (ms : List ℚ) (hT : 0 < T) (hf : ∀ x ∈ ms, ¬ x < FORCE_THRESHOLD)
    (h0 : 0 ≤ si.activity) (h1 : si.activity ≤ 1) :
    0 ≤ (rescale (some si) d T ms).2.activity ∧
      (rescale (some si) d T ms).2.activity ≤ 1 := by
  have hTQ : (0 : ℚ) < (T : ℚ) := by exact_mod_cast hT
  have hr := raw_activity_bounds ms (T : ℚ) hTQ (aggregate_no_force ms hf)
  have he : (rescale (some si) d T ms).2.activity =
      (1 - MOVING_FACTOR) * si.activity +
        MOVING_FACTOR * raw_activity (aggregate ms) (T : ℚ) := rfl
  rw [he]
  exact ema_bounds _ _ h0 h1 hr.1 hr.2

theorem active_duration_one : active_duration_secs 1 = 993 / 1000 := by
  norm_num [active_duration_secs, MIN_LAMBDA_OVERHEAD]

theorem aggregate_replicate_one (n : ℕ) :
    aggregate (List.replicate n (1 : ℚ)) = ⟨n * (993 / 1000), n * (20 / 1000), false⟩ := by
  rw [aggregate_spec]
  simp only [List.map_replicate, active_duration_one, List.sum_replicate, nsmul_eq_mul,
    List.length_replicate, MAX_LAMBDA_OVERHEAD, AggState.mk.injEq, true_and, and_true]
  rw [List.any_eq_false]
  intro x hx
  rw [List.mem_replicate] at hx
  rw [hx.2]
  norm_num [FORCE_THRESHOLD]

theorem aggregate_append (l1 l2 : List ℚ) :
    aggregate (l1 ++ l2) = agg_combine (aggregate l1) (aggregate l2) := by
  simp only [aggregate_spec, agg_combine, AggState.mk.injEq, List.map_append, List.sum_append,
    List.length_append, List.any_append]
  refine ⟨trivial, ?_, trivial⟩
  push_cast
  ring

theorem aggregate_perm {l1 l2 : List ℚ} (h : l1.Perm l2) : aggregate l1 = aggregate l2 := by
  have hs : (l1.map active_duration_secs).sum = (l2.map active_duration_secs).sum :=
    (h.map active_duration_secs).sum_eq
  have hl : l1.length = l2.length := h.length_eq
  have hb : (l1.any fun d => decide (d < FORCE_THRESHOLD)) =
      (l2.any fun d => decide (d < FORCE_THRESHOLD)) := by
    cases e1 : l2.any fun d => decide (d < FORCE_THRESHOLD) with
    | false =>
      rw [List.any_eq_false] at e1
      rw [List.any_eq_false]
      intro x hx
      exact e1 x (h.mem_iff.mp hx)
    | true =>
      rw [List.any_eq_true] at e1
      rw [List.any_eq_true]
      obtain ⟨x, hx, hdx⟩ := e1
      exact ⟨x, h.mem_iff.mpr hx, hdx⟩
  rw [aggregate_spec, aggregate_spec, hs, hl, hb]

theorem agg_combine_assoc (x y z : AggState) :
    agg_combine (agg_combine x y) z = agg_combine x (agg_combine y z) := by
  cases x
  cases y
  cases z
  simp [agg_combine, add_assoc, Bool.or_assoc]

theorem agg_combine_left_id (x : AggState) : agg_combine ⟨0, 0, false⟩ x = x := by
  cases x
  simp [agg_combine]

theorem agg_combine_foldl (bs : List (List ℚ)) (init : AggState) :
    (bs.map aggregate).foldl agg_combine init = agg_combine init (aggregate (flat_batches bs)) := by
  induction bs generalizing init with
  | nil =>
    cases init
    simp [agg_combine, flat_batches, aggregate]
  | cons b bs ih =>
    simp only [List.map_cons, List.foldl_cons]
    rw [ih (agg_combine init (aggregate b)),
      show flat_batches (b :: bs) = b ++ flat_batches bs from rfl, aggregate_append,
      agg_combine_assoc]

theorem scenario_step0 :
    rescale (some ⟨0, 0⟩) scenario_actor 60 (List.replicate 0 (1 : ℚ)) = (0, ⟨0, 0⟩) := by
  simp only [rescale, new_scaling_info, aggregate_replicate_one, Option.getD]
  norm_num [raw_activity, price_ratio, ecs_cost, lambda_cost, waiting_cost, MOVING_FACTOR,
    ECS_BASE_PRICE, LAMBDA_UNIT_PRICE, scenario_actor]

theorem scenario_step1 :
    rescale (some ⟨0, 0⟩) scenario_actor 60 (List.replicate 30 (1 : ℚ)) =
      (0, ⟨993 / 8000, 1 / 400⟩) := by
  simp only [rescale, new_scaling_info, aggregate_replicate_one, Option.getD]
  norm_num [raw_activity, price_ratio, ecs_cost, lambda_cost, waiting_cost, MOVING_FACTOR,
    ECS_BASE_PRICE, LAMBDA_UNIT_PRICE, scenario_actor]

theorem scenario_step2 :
    rescale (some ⟨993 / 8000, 1 / 400⟩) scenario_actor 60 (List.replicate 30 (1 : ℚ)) =
      (0, ⟨6951 / 32000, 7 / 1600⟩) := by
  simp only [rescale, new_scaling_info, aggregate_replicate_one, Option.getD]
  norm_num [raw_activity, price_ratio, ecs_cost, lambda_cost, waiting_cost, MOVING_FACTOR,
    ECS_BASE_PRICE, LAMBDA_UNIT_PRICE, scenario_actor]

theorem scenario_step3 :
    rescale (some ⟨6951 / 32000, 7 / 1600⟩) scenario_actor 60 (List.replicate 600 (1 : ℚ)) =
      (1, ⟨52853 / 128000, 341 / 6400⟩) := by
  simp only [rescale, new_scaling_info, aggregate_replicate_one, Option.getD]
  norm_num [raw_activity, price_ratio, ecs_cost, lambda_cost, waiting_cost, MOVING_FACTOR,
    ECS_BASE_PRICE, LAMBDA_UNIT_PRICE, scenario_actor]

theorem scenario_step4 :
    rescale (some ⟨52853 / 128000, 341 / 6400⟩) scenario_actor 60 (List.replicate 600 (1 : ℚ)) =
      (1, ⟨286559 / 512000, 2303 / 25600⟩) := by
  simp only [rescale, new_scaling_info, aggregate_replicate_one, Option.getD]
  norm_num [raw_activity, price_ratio, ecs_cost, lambda_cost, waiting_cost, MOVING_FACTOR,
    ECS_BASE_PRICE, LAMBDA_UNIT_PRICE, scenario_actor]

theorem scenario_state2 :
    run_cycles ⟨0, 0⟩ scenario_actor (scenario_cycles [0, 30, 30]) =
      ⟨6951 / 32000, 7 / 1600⟩ := by
  simp only [run_cycles, scenario_cycles, List.map_cons, List.map_nil, List.foldl_cons,
    List.foldl_nil]
  rw [scenario_step0, scenario_step1, scenario_step2]

theorem scenario_state3 :
    run_cycles ⟨0, 0⟩ scenario_actor (scenario_cycles [0, 30, 30, 600]) =
      ⟨52853 / 128000, 341 / 6400⟩ := by
  simp only [run_cycles, scenario_cycles, List.map_cons, List.map_nil, List.foldl_cons,
    List.foldl_nil]
  rw [scenario_step0, scenario_step1, scenario_step2, scenario_step3]

theorem scenario_state4 :
    run_cycles ⟨0, 0⟩ scenario_actor (scenario_cycles [0, 30, 30, 600, 600]) =
      ⟨286559 / 512000, 2303 / 25600⟩ := by
  simp only [run_cycles, scenario_cycles, List.map_cons, List.map_nil, List.foldl_cons,
    List.foldl_nil]
  rw [scenario_step0, scenario_step1, scenario_step2, scenario_step3, scenario_step4]

/-! ## Claim theorems -/

/-- Claim C1, counterexample: with a zero elapsed interval between the two
rescale timestamps, `rescale` does not reject the call with an "invalid
interval" error — it returns an ordinary `(scale, state)` result, the
division of the totals by the interval having been performed.  (In the
exact-arithmetic model division by zero yields `0`; the source's `f64`
would yield non-finite values, but in neither case is an error raised.) -/
theorem C1_counterexample :
    rescale (some ⟨0, 0⟩) scenario_actor 0 [1] = (0, ⟨0, 0⟩) := by
  norm_num [rescale, new_scaling_info, aggregate, agg_step, active_duration_secs, raw_activity,
    price_ratio, ecs_cost, lambda_cost, waiting_cost, MOVING_FACTOR, MIN_LAMBDA_OVERHEAD,
    MAX_LAMBDA_OVERHEAD, FORCE_THRESHOLD, ECS_BASE_PRICE, LAMBDA_UNIT_PRICE, scenario_actor]

/-- Claim C1, amended: the policy performs no interval validation.  For
every call with non-positive elapsed interval `T` it still returns a
result whose components are the moving averages computed by dividing the
aggregated totals by `T` — no rejection occurs. -/
theorem C1_no_interval_rejection (si : MessagingScalingInfo) (d : MsgInfo) (T : ℤ)
    (ms : List ℚ) (_hT : T ≤ 0) :
    (rescale (some si) d T ms).2.waiting =
        (1 - MOVING_FACTOR) * si.waiting +
          MOVING_FACTOR * ((aggregate ms).total_waiting_secs / (T : ℚ)) ∧
      (rescale (some si) d T ms).2.activity =
        (1 - MOVING_FACTOR) * si.activity +
          MOVING_FACTOR * raw_activity (aggregate ms) (T : ℚ) :=
  ⟨rfl, rfl⟩

/-- Claim C1, witness for the amended theorem at interval `0`. -/
theorem C1_witness :
    ((0 : ℤ) ≤ 0) ∧
      ((rescale (some ⟨1, 1⟩) scenario_actor 0 [1]).2.waiting =
          (1 - MOVING_FACTOR) * (1 : ℚ) +
            MOVING_FACTOR * ((aggregate [1]).total_waiting_secs / ((0 : ℤ) : ℚ)) ∧
        (rescale (some ⟨1, 1⟩) scenario_actor 0 [1]).2.activity =
          (1 - MOVING_FACTOR) * (1 : ℚ) +
            MOVING_FACTOR * raw_activity (aggregate [1]) ((0 : ℤ) : ℚ)) :=
  ⟨le_refl 0, C1_no_interval_rejection ⟨1, 1⟩ scenario_actor 0 [1] (le_refl 0)⟩

/-- Claim C2, counterexample: a sample of duration `0`, which is below
`FORCE_THRESHOLD`, does not contribute nothing to `total_active_secs` —
it contributes the 1ms floor, because the loop has no else branch. -/
theorem C2_counterexample :
    (0 : ℚ) < FORCE_THRESHOLD ∧
      (aggregate [(0 : ℚ)]).total_active_secs = 1 / 1000 ∧
      ¬ (aggregate [(0 : ℚ)]).total_active_secs = 0 ∧
      (aggregate [(0 : ℚ)]).force_spin_up = true := by
  norm_num [aggregate, agg_step, active_duration_secs, MIN_LAMBDA_OVERHEAD, FORCE_THRESHOLD]

/-- Claim C2, amended: every sample, including one below `FORCE_THRESHOLD`,
accumulates `max(d - minOverhead, 0.001)` into `total_active_secs`; a
sub-threshold sample additionally turns on the sticky `force_spin_up`
flag (there is no if-else: the force check and the accumulation are both
performed for each sample). -/
theorem C2_always_accumulates (ms : List ℚ) :
    (aggregate ms).total_active_secs = (ms.map active_duration_secs).sum ∧
      ((aggregate ms).force_spin_up = true ↔ ∃ d ∈ ms, d < FORCE_THRESHOLD) := by
  rw [aggregate_spec]
  refine ⟨rfl, ?_⟩
  show (ms.any fun d => decide (d < FORCE_THRESHOLD)) = true ↔ _
  simp [List.any_eq_true]

/-- Claim C3, counterexample: a negative-duration sample is not skipped —
it contributes the 1ms floor to `total_active_secs`, the caller overhead
to `total_waiting_secs`, and turns `force_spin_up` on. -/
theorem C3_counterexample :
    ((-1 : ℚ) < 0) ∧ aggregate [(-1 : ℚ)] = ⟨1 / 1000, 20 / 1000, true⟩ := by
  norm_num [aggregate, agg_step, active_duration_secs, MIN_LAMBDA_OVERHEAD,
    MAX_LAMBDA_OVERHEAD, FORCE_THRESHOLD]

/-- Claim C3, amended: a negative-duration sample is processed like any
other sample, not skipped: it adds the 1ms floor to `total_active_secs`,
adds `MAX_LAMBDA_OVERHEAD` to `total_waiting_secs`, and (being below
`FORCE_THRESHOLD`) forces `force_spin_up`; no skipped-sample count exists
anywhere in the result. -/
theorem C3_negative_processed (acc : AggState) (d : ℚ) (h : d < 0) :
    agg_step acc d =
      ⟨acc.total_active_secs + 1 / 1000, acc.total_waiting_secs + MAX_LAMBDA_OVERHEAD, true⟩ := by
  have h1 : active_duration_secs d = 1 / 1000 := by
    unfold active_duration_secs MIN_LAMBDA_OVERHEAD
    rw [if_pos (by linarith)]
  have h2 : decide (d < FORCE_THRESHOLD) = true := by
    rw [decide_eq_true_eq]
    unfold FORCE_THRESHOLD
    linarith
  simp [agg_step, h1, h2]

/-- Claim C3, witness for the amended theorem at duration `-1`. -/
theorem C3_witness :
    ((-1 : ℚ) < 0) ∧
      agg_step ⟨0, 0, false⟩ (-1) =
        ⟨(0 : ℚ) + 1 / 1000, (0 : ℚ) + MAX_LAMBDA_OVERHEAD, true⟩ :=
  ⟨by norm_num, C3_negative_processed ⟨0, 0, false⟩ (-1) (by norm_num)⟩

/-- Claim C4: over any sequence of cycles with positive intervals in which
no sample is below `FORCE_THRESHOLD`, starting from an activity in
`[0, 1]`, the smoothed activity stays in `[0, 1]` — without forced
activation the raw activity is capped at `1`, so the moving average can
never exceed `1`. -/
theorem C4_activity_invariant (init : MessagingScalingInfo) (d : MsgInfo)
    (cycles : List (ℤ × List ℚ))
    (hT : ∀ c ∈ cycles, 0 < c.1)
    (hf : ∀ c ∈ cycles, ∀ x ∈ c.2, ¬ x < FORCE_THRESHOLD)
    (h0 : 0 ≤ init.activity) (h1 : init.activity ≤ 1) :
    0 ≤ (run_cycles init d cycles).activity ∧ (run_cycles init d cycles).activity ≤ 1 := by
  induction cycles generalizing init with
  | nil => exact ⟨h0, h1⟩
  | cons c cs ih =>
    have hstep := rescale_activity_bounds init d c.1 c.2 (hT c (List.mem_cons_self c cs))
      (hf c (List.mem_cons_self c cs)) h0 h1
    have hrw : run_cycles init d (c :: cs) =
        run_cycles (rescale (some init) d c.1 c.2).2 d cs := rfl
    rw [hrw]
    exact ih _ (fun x hx => hT x (List.mem_cons_of_mem c hx))
      (fun x hx => hf x (List.mem_cons_of_mem c hx)) hstep.1 hstep.2

/-- Claim C4, witness: one 60-second cycle with a single one-second sample
starting from the zero state. -/
theorem C4_witness :
    ((∀ c ∈ [((60 : ℤ), [(1 : ℚ)])], 0 < c.1) ∧
        (∀ c ∈ [((60 : ℤ), [(1 : ℚ)])], ∀ x ∈ c.2, ¬ x < FORCE_THRESHOLD) ∧
        0 ≤ (MessagingScalingInfo.mk 0 0).activity ∧
        (MessagingScalingInfo.mk 0 0).activity ≤ 1) ∧
      (0 ≤ (run_cycles ⟨0, 0⟩ scenario_actor [((60 : ℤ), [(1 : ℚ)])]).activity ∧
        (run_cycles ⟨0, 0⟩ scenario_actor [((60 : ℤ), [(1 : ℚ)])]).activity ≤ 1) := by
  have hT : ∀ c ∈ [((60 : ℤ), [(1 : ℚ)])], 0 < c.1 := by
    intro c hc
    rw [List.mem_singleton] at hc
    subst hc
    norm_num
  have hf : ∀ c ∈ [((60 : ℤ), [(1 : ℚ)])], ∀ x ∈ c.2, ¬ x < FORCE_THRESHOLD := by
    intro c hc x hx
    rw [List.mem_singleton] at hc
    subst hc
    rw [List.mem_singleton] at hx
    subst hx
    norm_num [FORCE_THRESHOLD]
  have h0 : 0 ≤ (MessagingScalingInfo.mk 0 0).activity := le_refl 0
  have h1 : (MessagingScalingInfo.mk 0 0).activity ≤ 1 := by norm_num
  exact ⟨⟨hT, hf, h0, h1⟩,
    C4_activity_invariant ⟨0, 0⟩ scenario_actor [((60 : ℤ), [(1 : ℚ)])] hT hf h0 h1⟩

/-- Claim C5, counterexample: in the end-to-end scenario the state after
cycle 3 (loads 0, 0.5, 0.5, 10.0, each a 60-second cycle of one-second
samples) has activity `52853/128000 ≈ 0.413`, which is not within
`(1.05, 1.15)` — without forced activation the raw activity is capped at
`1`, so the claimed values are unreachable for the policy. -/
theorem C5_counterexample :
    (run_cycles ⟨0, 0⟩ scenario_actor (scenario_cycles [0, 30, 30, 600])).activity =
        52853 / 128000 ∧
      ¬ ((21 / 20 : ℚ) < 52853 / 128000 ∧ (52853 / 128000 : ℚ) < 23 / 20) := by
  rw [scenario_state3]
  norm_num

/-- Claim C5, amended: in the end-to-end scenario, cycle 3 emits scale `1`
with activity `52853/128000 ≈ 0.413` and cycle 4 emits scale `1` with
activity `286559/512000 ≈ 0.560`; the claimed scale decisions hold, but
the activity stays below `1` since no sample is below `FORCE_THRESHOLD`
and the non-forced raw activity is capped at `1`. -/
theorem C5_scenario_values :
    run_cycles ⟨0, 0⟩ scenario_actor (scenario_cycles [0, 30, 30, 600]) =
        ⟨52853 / 128000, 341 / 6400⟩ ∧
      (rescale (some (run_cycles ⟨0, 0⟩ scenario_actor (scenario_cycles [0, 30, 30])))
          scenario_actor 60 (List.replicate 600 1)).1 = 1 ∧
      run_cycles ⟨0, 0⟩ scenario_actor (scenario_cycles [0, 30, 30, 600, 600]) =
        ⟨286559 / 512000, 2303 / 25600⟩ ∧
      (rescale (some (run_cycles ⟨0, 0⟩ scenario_actor (scenario_cycles [0, 30, 30, 600])))
          scenario_actor 60 (List.replicate 600 1)).1 = 1 := by
  refine ⟨scenario_state3, ?_, scenario_state4, ?_⟩
  · rw [scenario_state2, scenario_step3]
  · rw [scenario_state3, scenario_step4]

/-- Claim C6: for every input, the emitted scale is `1` exactly when the
price ratio computed from the new state is at least `1.0`, and `0`
exactly when it is strictly below `1.0`. -/
theorem C6_decision_boundary (si : Option MessagingScalingInfo) (d : MsgInfo) (T : ℤ)
    (ms : List ℚ) :
    ((rescale si d T ms).1 = 1 ↔ price_ratio d (rescale si d T ms).2 ≥ 1) ∧
      ((rescale si d T ms).1 = 0 ↔ price_ratio d (rescale si d T ms).2 < 1) := by
  have h : (rescale si d T ms).1 =
      if price_ratio d (rescale si d T ms).2 ≥ 1 then 1 else 0 := rfl
  rw [h]
  split
  · rename_i hc
    refine ⟨⟨fun _ => hc, fun _ => rfl⟩, ?_⟩
    simp [not_lt.mpr hc]
  · rename_i hc
    rw [not_le] at hc
    refine ⟨⟨fun habs => absurd habs (by norm_num), fun hge => absurd hge (not_le.mpr hc)⟩, ?_⟩
    simp [hc]

/-- Claim C7: one sample below `FORCE_THRESHOLD` anywhere in the batch
makes the cycle's raw activity the sentinel `10.0`, whatever the other
samples and the interval are. -/
theorem C7_force_sticky (ms : List ℚ) (T : ℚ) (h : ∃ x ∈ ms, x < FORCE_THRESHOLD) :
    raw_activity (aggregate ms) T = 10 := by
  have hforce : (aggregate ms).force_spin_up = true := by
    rw [aggregate_spec]
    show (ms.any fun d => decide (d < FORCE_THRESHOLD)) = true
    rw [List.any_eq_true]
    obtain ⟨x, hx, hlt⟩ := h
    exact ⟨x, hx, by simpa using hlt⟩
  unfold raw_activity
  rw [hforce]
  rfl

/-- Claim C7, witness: a zero-duration sample next to a large sample still
forces the sentinel raw activity. -/
theorem C7_witness :
    (∃ x ∈ [(0 : ℚ), 100], x < FORCE_THRESHOLD) ∧
      raw_activity (aggregate [(0 : ℚ), 100]) 60 = 10 :=
  ⟨⟨0, by simp, by norm_num [FORCE_THRESHOLD]⟩,
    C7_force_sticky [0, 100] 60 ⟨0, by simp, by norm_num [FORCE_THRESHOLD]⟩⟩

/-- Claim C8, counterexample: with a zero-sized resource descriptor the
provisioned cost actually used as the divisor is exactly `0`, not a
guarded non-zero minimum, and the division is performed anyway (the
exact-arithmetic model's zero-division convention gives ratio `0` and
scale `0`; the source's `f64` division would give a non-finite ratio —
either way no guard exists). -/
theorem C8_counterexample :
    ecs_cost ⟨0, 1024, 1024⟩ = 0 ∧
      rescale (some ⟨1, 1⟩) ⟨0, 1024, 1024⟩ 60 [] = (0, ⟨3 / 4, 3 / 4⟩) := by
  constructor
  · norm_num [ecs_cost, ECS_BASE_PRICE]
  · norm_num [rescale, new_scaling_info, aggregate, raw_activity, price_ratio, ecs_cost,
      lambda_cost, waiting_cost, MOVING_FACTOR, ECS_BASE_PRICE, LAMBDA_UNIT_PRICE]

/-- Claim C8, amended: no finiteness guard exists — the comparator divides
by `ecs_cost` exactly as computed from the descriptor, so a zero
provisioned memory gives divisor `0`; in the exact-arithmetic model the
resulting ratio is `0` and the emitted scale is `0` regardless of load
(IEEE `f64` would instead propagate a non-finite ratio). -/
theorem C8_no_guard (si : Option MessagingScalingInfo) (d : MsgInfo) (T : ℤ) (ms : List ℚ)
    (h : d.mem = 0) :
    ecs_cost d = 0 ∧ (rescale si d T ms).1 = 0 := by
  have hc : ecs_cost d = 0 := by
    simp [ecs_cost, h]
  refine ⟨hc, ?_⟩
  have he : (rescale si d T ms).1 =
      if price_ratio d (rescale si d T ms).2 ≥ 1 then 1 else 0 := rfl
  rw [he, price_ratio, hc, div_zero, if_neg (by norm_num)]

/-- Claim C8, witness for the amended theorem at a zero-memory descriptor. -/
theorem C8_witness :
    (MsgInfo.mk 0 1024 1024).mem = 0 ∧
      (ecs_cost ⟨0, 1024, 1024⟩ = 0 ∧ (rescale none ⟨0, 1024, 1024⟩ 60 [1]).1 = 0) :=
  ⟨rfl, C8_no_guard none ⟨0, 1024, 1024⟩ 60 [1] rfl⟩

/-- Claim C9: aggregating any family of sub-batches separately and
combining the per-batch results pointwise gives the same totals and force
flag as aggregating any reordering of the whole sample set at once —
aggregation is a commutative, associative reduction. -/
theorem C9_reduction (bs : List (List ℚ)) (ms : List ℚ) (h : (flat_batches bs).Perm ms) :
    (bs.map aggregate).foldl agg_combine ⟨0, 0, false⟩ = aggregate ms := by
  rw [agg_combine_foldl, aggregate_perm h, agg_combine_left_id]

/-- Claim C9, witness: two sub-batches whose concatenation is a reordering
of the whole batch. -/
theorem C9_witness :
    (flat_batches [[(2 : ℚ)], [1]]).Perm [1, 2] ∧
      ([[(2 : ℚ)], [1]].map aggregate).foldl agg_combine ⟨0, 0, false⟩ = aggregate [1, 2] :=
  ⟨List.Perm.swap 1 2 [], C9_reduction [[2], [1]] [1, 2] (List.Perm.swap 1 2 [])⟩

/-- Claim C10: the waiting component of the new state depends only on the
number of samples in the batch (each sample contributes the constant
`MAX_LAMBDA_OVERHEAD`), never on the individual durations: two batches of
equal length yield identical new waiting values. -/
theorem C10_waiting_count_only (si : Option MessagingScalingInfo) (d : MsgInfo) (T : ℤ)
    (ms1 ms2 : List ℚ) (h : ms1.length = ms2.length) :
    (rescale si d T ms1).2.waiting = (rescale si d T ms2).2.waiting := by
  have e : ∀ ms : List ℚ, (rescale si d T ms).2.waiting =
      (1 - MOVING_FACTOR) * (si.getD ⟨0, 0⟩).waiting +
        MOVING_FACTOR * (ms.length * MAX_LAMBDA_OVERHEAD / (T : ℚ)) := by
    intro ms
    show (1 - MOVING_FACTOR) * (si.getD ⟨0, 0⟩).waiting +
        MOVING_FACTOR * ((aggregate ms).total_waiting_secs / (T : ℚ)) = _
    rw [aggregate_spec]
  rw [e ms1, e ms2, h]

/-- Claim C10, witness: two length-2 batches with different durations give
the same new waiting value. -/
theorem C10_witness :
    ([(1 : ℚ), 2].length = [(5 : ℚ), 0].length) ∧
      (rescale none scenario_actor 60 [(1 : ℚ), 2]).2.waiting =
        (rescale none scenario_actor 60 [(5 : ℚ), 0]).2.waiting :=
  ⟨rfl, C10_waiting_count_only none scenario_actor 60 [1, 2] [5, 0] rfl⟩

end Rescaler
